import Mathlib

/-!
# Verification of the BGST extraction core (Swiftshine/bgst)

Shallow embedding of `src/lib.rs` (crate `bgst`).  Byte buffers are modelled
as `List Nat`; every byte of a real buffer is `< 256`, stated as a hypothesis
(`Bytes`) where a theorem needs it.  Rust slice indexing that can panic is
modelled by checked reads returning `Option`, and a function that can panic
returns `Except ExtractError _` with the distinguished value `.panic` for an
out-of-bounds index (Rust `bail!` becomes `.err msg`).  Machine integers are
`Nat`/`Int` with explicit reduction modulo 2^16 where the source truncates.

The external texture decoder (`gctex::decode`) is an external collaborator:
the embedding is parameterised by a decode function `d`.
-/

namespace BGST

set_option maxRecDepth 100000

/-- Outcome of a fallible operation: Rust `bail!` is `.err`, an
out-of-bounds slice panic is `.panic`. -/
inductive ExtractError where
  | panic : ExtractError
  | err : String → ExtractError
deriving DecidableEq, Repr

/-- Texture formats (`gctex::TextureFormat`) used by the source. -/
inductive TextureFormat where
  | CMPR : TextureFormat
  | I4 : TextureFormat
deriving DecidableEq, Repr

/-- The external decoder `gctex::decode` (the trailing constant arguments
`&Vec::new(), 0` of the source are omitted): encoded block, width, height,
format, to RGBA bytes. -/
def DecodeFun : Type := List Nat → Nat → Nat → TextureFormat → List Nat

/-- Constant `HEADER_SIZE` from the source. -/
def HEADER_SIZE : Nat := 0x40

/-- Constant `GRID_ENTRY_SIZE` from the source. -/
def GRID_ENTRY_SIZE : Nat := 0x10

/-- Constant `COMPRESSED_IMAGE_SIZE` from the source. -/
def COMPRESSED_IMAGE_SIZE : Nat := 0x20000

/-- All elements of the buffer are genuine bytes. -/
def Bytes (b : List Nat) : Prop := ∀ x ∈ b, x < 256

/-- Interpret a natural number as a signed 16-bit value (the value
`BigEndian::read_i16` yields, and the value of `u32 as i16`):
reduce modulo 2^16 and subtract 2^16 when the high bit is set. -/
def toI16 (n : Nat) : Int :=
  if n % 65536 < 32768 then (n % 65536 : Int) else (n % 65536 : Int) - 65536

/-- Big-endian `BigEndian::read_u32(&b[off..off+4])`.  Total: every call in the source
is guarded by `validate_header` (length ≥ 0x40 > off+4), so the default
branch of `getD` is never taken there. -/
def readU32BE (b : List Nat) (off : Nat) : Nat :=
  b.getD off 0 * 0x1000000 + b.getD (off + 1) 0 * 0x10000 +
    b.getD (off + 2) 0 * 0x100 + b.getD (off + 3) 0

/-- Checked `BigEndian::read_i16(&b[off..off+2])`: `none` models the panic
of slicing past the end of the buffer. -/
def readI16? (b : List Nat) (off : Nat) : Option Int :=
  if off + 2 ≤ b.length then some (toI16 (b.getD off 0 * 256 + b.getD (off + 1) 0))
  else none

/-- Structure `Header` from the source (underscore prefixes dropped). -/
structure Header where
  unk_4 : Nat
  image_width : Nat
  image_height : Nat
  grid_width : Nat
  grid_height : Nat
  image_count : Nat
  layer_enabled : List Bool
  info_offset : Nat
  image_data_offset : Nat
deriving DecidableEq, Repr

/-- Parser `Header::from_validated_header_bytes`: big-endian fixed-offset reads;
the layer flags use the source's own defaulted access
(`.get(0x1C + i).copied().unwrap_or(0) != 0`). -/
def Header.from_validated_header_bytes (header_contents : List Nat) : Header :=
  { unk_4 := readU32BE header_contents 4
    image_width := readU32BE header_contents 8
    image_height := readU32BE header_contents 0xC
    grid_width := readU32BE header_contents 0x10
    grid_height := readU32BE header_contents 0x14
    image_count := readU32BE header_contents 0x18
    layer_enabled := (List.range 12).map (fun i => header_contents.getD (0x1C + i) 0 ≠ 0)
    info_offset := readU32BE header_contents 0x28
    image_data_offset := readU32BE header_contents 0x2C }

/-- Structure `GridEntry`: eight signed 16-bit fields. -/
structure GridEntry where
  enabled : Int
  scene_index : Int
  grid_x : Int
  grid_y : Int
  main_image_index : Int
  mask_image_index : Int
  unk_c : Int
  unk_e : Int
deriving DecidableEq, Repr

/-- Predicate `GridEntry::is_enabled`. -/
def GridEntry.is_enabled (e : GridEntry) : Bool := e.enabled ≠ 0

/-- Structure `ImageList` (the `bgst_processing` one used by `get_raw_images`). -/
structure ImageList where
  image_width : Nat
  image_height : Nat
  grid_entries : List GridEntry
  images : List (List Nat)
deriving DecidableEq, Repr

/-- Validation `validate_header`: length at least `HEADER_SIZE` and magic `"BGST"`
(`0x42 0x47 0x53 0x54`). -/
def validate_header (file_contents : List Nat) : Bool :=
  if file_contents.length < HEADER_SIZE then false
  else if file_contents.take 4 ≠ [0x42, 0x47, 0x53, 0x54] then false
  else true

/-- One iteration's reads of the grid-entry loop in `get_raw_images`:
eight big-endian `i16` reads from the 16-byte window at `off`. -/
def readGridEntry? (b : List Nat) (off : Nat) : Option GridEntry :=
  match readI16? b off, readI16? b (off + 2), readI16? b (off + 4),
      readI16? b (off + 6), readI16? b (off + 8), readI16? b (off + 0xA),
      readI16? b (off + 0xC), readI16? b (off + 0xE) with
  | some enabled, some scene_index, some grid_x, some grid_y,
      some main_image_index, some mask_image_index, some unk_c, some unk_e =>
    some ⟨enabled, scene_index, grid_x, grid_y, main_image_index,
      mask_image_index, unk_c, unk_e⟩
  | _, _, _, _, _, _, _, _ => none

/-- Loop body of the `while current_offset < header.image_data_offset` loop
of `get_raw_images`, with the number of remaining iterations as structural
fuel (the caller passes exactly `⌈(target - current_offset) / 16⌉`, the
iteration count of the source loop, so the guard `current_offset < target`
and the fuel run out together). -/
def parseEntriesGo (b : List Nat) (target : Nat) :
    Nat → Nat → Except ExtractError (List GridEntry)
  | 0, _ => .ok []
  | n + 1, current_offset =>
    if current_offset < target then
      match readGridEntry? b current_offset with
      | none => .error .panic
      | some e =>
        match parseEntriesGo b target n (current_offset + GRID_ENTRY_SIZE) with
        | .error er => .error er
        | .ok rest => .ok (e :: rest)
    else .ok []

/-- The `while current_offset < header.image_data_offset` loop of
`get_raw_images`: read a 16-byte record, advance by `GRID_ENTRY_SIZE`,
stop once the cursor reaches `target`. -/
def parseEntries (b : List Nat) (current_offset target : Nat) :
    Except ExtractError (List GridEntry) :=
  parseEntriesGo b target ((target - current_offset + 15) / 16) current_offset

/-- The body of one image slot in the decode loop of `get_raw_images`:
if `idx > -1 && idx < header.image_count as i16`, slice the `0x20000`-byte
block at `idx * 0x20000` (a panic if it overruns `image_data`) and decode it;
otherwise contribute nothing.  Inside the guard `idx > -1`, the source's
`idx as usize` equals `idx.toNat`. -/
def decodeSlot (d : DecodeFun) (header : Header) (image_data : List Nat)
    (idx : Int) (fmt : TextureFormat) : Except ExtractError (List (List Nat)) :=
  if idx > -1 ∧ idx < toI16 header.image_count then
    if idx.toNat * COMPRESSED_IMAGE_SIZE + COMPRESSED_IMAGE_SIZE ≤ image_data.length then
      .ok [d ((image_data.drop (idx.toNat * COMPRESSED_IMAGE_SIZE)).take COMPRESSED_IMAGE_SIZE)
        header.image_width header.image_height fmt]
    else .error .panic
  else .ok []

/-- The `for i in 0..grid_entries.len()` loop of `get_raw_images`: per entry,
the main slot (CMPR) then the mask slot (I4). -/
def decodeEntries (d : DecodeFun) (header : Header) (image_data : List Nat) :
    List GridEntry → Except ExtractError (List (List Nat))
  | [] => .ok []
  | e :: rest =>
    match decodeSlot d header image_data e.main_image_index .CMPR with
    | .error er => .error er
    | .ok mains =>
      match decodeSlot d header image_data e.mask_image_index .I4 with
      | .error er => .error er
      | .ok masks =>
        match decodeEntries d header image_data rest with
        | .error er => .error er
        | .ok rests => .ok (mains ++ masks ++ rests)

/-- Function `get_raw_images`, parameterised by the external decoder `d`.
`Vec::from(&bgst_contents[header.image_data_offset..])` panics when the
offset exceeds the buffer length, hence the `≤` check. -/
def get_raw_images (d : DecodeFun) (bgst_contents : List Nat) :
    Except ExtractError ImageList :=
  if ¬ validate_header bgst_contents then .error (.err "file is not a valid BGST file")
  else
    let header := Header.from_validated_header_bytes bgst_contents
    match parseEntries bgst_contents header.info_offset header.image_data_offset with
    | .error er => .error er
    | .ok grid_entries =>
      if header.image_data_offset ≤ bgst_contents.length then
        let image_data := bgst_contents.drop header.image_data_offset
        match decodeEntries d header image_data grid_entries with
        | .error er => .error er
        | .ok images =>
          .ok { image_width := header.image_width
                image_height := header.image_height
                grid_entries := grid_entries
                images := images }
      else .error .panic

/-- Reconstruction `image::ImageBuffer::from_raw`: succeeds iff the container holds at
least `width * height * 4` bytes (the crate checks `min_len <= buf.len()`;
its `usize` overflow check cannot fire for `Nat`). -/
def from_raw (width height : Nat) (buf : List Nat) : Option (List Nat) :=
  if width * height * 4 ≤ buf.length then some buf else none

/-- One output pixel of `apply_mask`'s per-pixel loop, at flat pixel index
`p` (`get_pixel (x, y)` reads channel `c` at byte `(y*width + x)*4 + c`,
and `(p % width, p / width)` gives `4*p + c`). -/
def maskPixel (main_img mask_img : List Nat) (p : Nat) : List Nat :=
  if mask_img.getD (4 * p) 0 = 0 ∧ mask_img.getD (4 * p + 1) 0 = 0 ∧
      mask_img.getD (4 * p + 2) 0 = 0 then
    [main_img.getD (4 * p) 0, main_img.getD (4 * p + 1) 0,
      main_img.getD (4 * p + 2) 0, 0]
  else
    [main_img.getD (4 * p) 0, main_img.getD (4 * p + 1) 0,
      main_img.getD (4 * p + 2) 0, main_img.getD (4 * p + 3) 0]

/-- Compositor `apply_mask`: equal-length check, reconstruction of both buffers as
`width × height` RGBA rasters, then the per-pixel mask pass over the
`width * height` output pixels in row-major order. -/
def apply_mask (main_image mask_image : List Nat) (width height : Nat) :
    Except ExtractError (List Nat) :=
  if main_image.length ≠ mask_image.length then
    .error (.err "the image sizes are not equal!")
  else
    match from_raw width height main_image with
    | none => .error (.err "failed to decode main image")
    | some main_img =>
      match from_raw width height mask_image with
      | none => .error (.err "failed to decode mask image")
      | some mask_img =>
        .ok ((List.range (width * height)).flatMap (maskPixel main_img mask_img))

/-- Unchecked variant of `readI16?`: the value a successful in-bounds
`BigEndian::read_i16` yields.  Agrees with `readI16?` whenever
`off + 2 ≤ b.length`. -/
def readI16D (b : List Nat) (off : Nat) : Int :=
  toI16 (b.getD off 0 * 256 + b.getD (off + 1) 0)

/-- Unchecked variant of `readGridEntry?`: the record a successful 16-byte
window read yields.  Agrees with `readGridEntry?` whenever
`off + 16 ≤ b.length`. -/
def readGridEntryD (b : List Nat) (off : Nat) : GridEntry :=
  { enabled := readI16D b off
    scene_index := readI16D b (off + 2)
    grid_x := readI16D b (off + 4)
    grid_y := readI16D b (off + 6)
    main_image_index := readI16D b (off + 8)
    mask_image_index := readI16D b (off + 0xA)
    unk_c := readI16D b (off + 0xC)
    unk_e := readI16D b (off + 0xE) }

/-- Unchecked variant of `decodeSlot`: the images one slot contributes when
every referenced block lies inside `image_data`.  Agrees with `decodeSlot`
whenever `(toI16 header.image_count).toNat * 0x20000 ≤ image_data.length`. -/
def decodeSlotD (d : DecodeFun) (header : Header) (image_data : List Nat)
    (idx : Int) (fmt : TextureFormat) : List (List Nat) :=
  if idx > -1 ∧ idx < toI16 header.image_count then
    [d ((image_data.drop (idx.toNat * COMPRESSED_IMAGE_SIZE)).take COMPRESSED_IMAGE_SIZE)
      header.image_width header.image_height fmt]
  else []

instance {ε α : Type} [DecidableEq ε] [DecidableEq α] : DecidableEq (Except ε α) := fun x y =>
  match x, y with
  | .error a, .error b =>
    if h : a = b then .isTrue (by rw [h]) else .isFalse (by simp [h])
  | .ok a, .ok b =>
    if h : a = b then .isTrue (by rw [h]) else .isFalse (by simp [h])
  | .error _, .ok _ => .isFalse (by simp)
  | .ok _, .error _ => .isFalse (by simp)

/-- Modelled from the spec: the export list of one entry in compositing
mode.  The CLI (`src/bgsttool/src/main.rs`) calls a two-argument
`bgst::extract_bgst(filename, should_mask)` whose library implementation is
not present under `src/`; per spec sections 4.3 to 4.5, each entry decodes
its main (CMPR) slot then its mask (I4) slot, and when compositing is
enabled a main/mask pair produced for the same entry is merged via the
mask-compositing function before export, while with compositing disabled
(or when the entry produced no pair) the decoded images are exported
unmodified, masks as independent images. -/
def entryExportImages (d : DecodeFun) (header : Header) (image_data : List Nat)
    (should_mask : Bool) (e : GridEntry) : Except ExtractError (List (List Nat)) :=
  match decodeSlot d header image_data e.main_image_index .CMPR with
  | .error er => .error er
  | .ok mains =>
    match decodeSlot d header image_data e.mask_image_index .I4 with
    | .error er => .error er
    | .ok masks =>
      if should_mask then
        match mains, masks with
        | [m], [k] =>
          match apply_mask m k header.image_width header.image_height with
          | .error er => .error er
          | .ok merged => .ok [merged]
        | _, _ => .ok (mains ++ masks)
      else .ok (mains ++ masks)

/-- Modelled from the spec: the per-entry export loop of the pipeline,
entries in file order. -/
def exportEntries (d : DecodeFun) (header : Header) (image_data : List Nat)
    (should_mask : Bool) : List GridEntry → Except ExtractError (List (List Nat))
  | [] => .ok []
  | e :: rest =>
    match entryExportImages d header image_data should_mask e with
    | .error er => .error er
    | .ok here =>
      match exportEntries d header image_data should_mask rest with
      | .error er => .error er
      | .ok later => .ok (here ++ later)

/-- Modelled from the spec: the pure core of the two-argument
`bgst::extract_bgst` called by `src/bgsttool/src/main.rs` (validate, parse
header, parse entries, decode, optionally composite), returning the ordered
RGBA buffers handed to the image-encoding collaborator.  Filesystem I/O and
PNG encoding are outside the model. -/
def extract_bgst (d : DecodeFun) (bgst_contents : List Nat) (should_mask : Bool) :
    Except ExtractError (List (List Nat)) :=
  if ¬ validate_header bgst_contents then .error (.err "file is not a valid BGST file")
  else
    let header := Header.from_validated_header_bytes bgst_contents
    match parseEntries bgst_contents header.info_offset header.image_data_offset with
    | .error er => .error er
    | .ok grid_entries =>
      if header.image_data_offset ≤ bgst_contents.length then
        exportEntries d header (bgst_contents.drop header.image_data_offset)
          should_mask grid_entries
      else .error .panic

/-! ## Helper lemmas -/

/-- Characterisation of `validate_header`. -/
lemma validate_header_iff (b : List Nat) :
    validate_header b = true ↔
      0x40 ≤ b.length ∧ b.take 4 = [0x42, 0x47, 0x53, 0x54] := by
  unfold validate_header HEADER_SIZE
  split
  · constructor
    · intro h
      exact absurd h (by simp)
    · intro h
      omega
  · split
    · constructor
      · intro h
        exact absurd h (by simp)
      · intro h
        simp_all
    · constructor
      · intro _
        refine ⟨by omega, by simp_all⟩
      · intro _
        rfl

/-- An in-bounds checked 16-bit read yields the unchecked value. -/
lemma readI16?_eq (b : List Nat) (off : Nat) (h : off + 2 ≤ b.length) :
    readI16? b off = some (readI16D b off) := by
  simp [readI16?, readI16D, h]

/-- An in-bounds checked 16-byte record read yields the unchecked record. -/
lemma readGridEntry?_eq (b : List Nat) (off : Nat) (h : off + 16 ≤ b.length) :
    readGridEntry? b off = some (readGridEntryD b off) := by
  have e0 := readI16?_eq b off (by omega)
  have e2 := readI16?_eq b (off + 2) (by omega)
  have e4 := readI16?_eq b (off + 4) (by omega)
  have e6 := readI16?_eq b (off + 6) (by omega)
  have e8 := readI16?_eq b (off + 8) (by omega)
  have eA := readI16?_eq b (off + 0xA) (by omega)
  have eC := readI16?_eq b (off + 0xC) (by omega)
  have eE := readI16?_eq b (off + 0xE) (by omega)
  simp [readGridEntry?, e0, e2, e4, e6, e8, eA, eC, eE, readGridEntryD]

/-- With exact fuel and all record windows inside the buffer, the parse
loop yields the records at offsets `cur, cur+16, …`. -/
lemma parseEntriesGo_eq_range (b : List Nat) (target : Nat) :
    ∀ (n cur : Nat), n = (target - cur + 15) / 16 → cur + 16 * n ≤ b.length →
      parseEntriesGo b target n cur =
        .ok ((List.range n).map fun i => readGridEntryD b (cur + 16 * i))
  | 0, cur => by
    intro _ _
    simp [parseEntriesGo]
  | n + 1, cur => by
    intro hn hlen
    have hcur : cur < target := by omega
    have h16 : cur + 16 ≤ b.length := by omega
    have hrec := parseEntriesGo_eq_range b target n (cur + 16) (by omega) (by omega)
    have harg : ∀ i : Nat, cur + 16 + 16 * i = cur + 16 * (i + 1) := by
      intro i
      ring
    simp only [parseEntriesGo, if_pos hcur, readGridEntry?_eq b cur h16, GRID_ENTRY_SIZE, hrec]
    simp [List.range_succ_eq_map, List.map_map, Function.comp, harg]

/-- The parse loop on a region whose record windows all lie inside the
buffer: `⌈(target - cur) / 16⌉` records, read at successive offsets. -/
lemma parseEntries_eq_range (b : List Nat) (cur target : Nat)
    (h : cur + 16 * ((target - cur + 15) / 16) ≤ b.length) :
    parseEntries b cur target =
      .ok ((List.range ((target - cur + 15) / 16)).map
        fun i => readGridEntryD b (cur + 16 * i)) :=
  parseEntriesGo_eq_range b target ((target - cur + 15) / 16) cur rfl h

/-- Truncating a count to a signed 16-bit value never increases it. -/
lemma toI16_toNat_le (n : Nat) : (toI16 n).toNat ≤ n := by
  unfold toI16
  split <;> omega

/-- With every declared block inside `image_data`, a slot decode cannot
panic and yields the unchecked slot value. -/
lemma decodeSlot_eq (d : DecodeFun) (header : Header) (image_data : List Nat)
    (idx : Int) (fmt : TextureFormat)
    (h : (toI16 header.image_count).toNat * COMPRESSED_IMAGE_SIZE ≤ image_data.length) :
    decodeSlot d header image_data idx fmt = .ok (decodeSlotD d header image_data idx fmt) := by
  unfold decodeSlot decodeSlotD
  split
  · rename_i hg
    have h1 : idx.toNat * COMPRESSED_IMAGE_SIZE + COMPRESSED_IMAGE_SIZE ≤ image_data.length := by
      unfold COMPRESSED_IMAGE_SIZE at h ⊢
      obtain ⟨hg1, hg2⟩ := hg
      omega
    rw [if_pos h1]
  · rfl

/-- With every declared block inside `image_data`, the decode loop cannot
panic and yields, per entry, the main-slot images then the mask-slot
images. -/
lemma decodeEntries_eq (d : DecodeFun) (header : Header) (image_data : List Nat)
    (h : (toI16 header.image_count).toNat * COMPRESSED_IMAGE_SIZE ≤ image_data.length) :
    ∀ l : List GridEntry,
      decodeEntries d header image_data l =
        .ok (l.flatMap fun e =>
          decodeSlotD d header image_data e.main_image_index .CMPR ++
            decodeSlotD d header image_data e.mask_image_index .I4)
  | [] => by simp [decodeEntries]
  | e :: rest => by
    rw [decodeEntries, decodeSlot_eq d header image_data e.main_image_index TextureFormat.CMPR h,
      decodeSlot_eq d header image_data e.mask_image_index TextureFormat.I4 h,
      decodeEntries_eq d header image_data h rest]
    simp [List.append_assoc]

/-- Master success lemma for `get_raw_images`: a validated buffer whose
record windows, data offset and declared blocks are all in bounds yields
exactly the records of the entry region and, per entry in file order, the
decoded main slot then the decoded mask slot. -/
lemma get_raw_images_eq (d : DecodeFun) (b : List Nat)
    (header : Header) (hh : header = Header.from_validated_header_bytes b)
    (hv : validate_header b = true)
    (hE : header.info_offset +
      16 * ((header.image_data_offset - header.info_offset + 15) / 16) ≤ b.length)
    (hD : header.image_data_offset ≤ b.length)
    (hB : header.image_data_offset +
      (toI16 header.image_count).toNat * COMPRESSED_IMAGE_SIZE ≤ b.length) :
    get_raw_images d b =
      .ok { image_width := header.image_width
            image_height := header.image_height
            grid_entries := (List.range ((header.image_data_offset - header.info_offset + 15) / 16)).map
              fun i => readGridEntryD b (header.info_offset + 16 * i)
            images := ((List.range ((header.image_data_offset - header.info_offset + 15) / 16)).map
              fun i => readGridEntryD b (header.info_offset + 16 * i)).flatMap
                fun e =>
                  decodeSlotD d header (b.drop header.image_data_offset) e.main_image_index .CMPR ++
                    decodeSlotD d header (b.drop header.image_data_offset) e.mask_image_index .I4 } := by
  have hblen : (toI16 header.image_count).toNat * COMPRESSED_IMAGE_SIZE ≤
      (b.drop header.image_data_offset).length := by
    rw [List.length_drop]
    omega
  rw [get_raw_images, if_neg (by simp [hv]), ← hh]
  simp only [parseEntries_eq_range b header.info_offset header.image_data_offset hE,
    if_pos hD, decodeEntries_eq d header (b.drop header.image_data_offset) hblen]

/-- Each output pixel of `apply_mask` is 4 bytes. -/
lemma maskPixel_length (main_img mask_img : List Nat) (p : Nat) :
    (maskPixel main_img mask_img p).length = 4 := by
  unfold maskPixel
  split <;> rfl

/-- Length of a `flatMap` of 4-byte chunks over `List.range n`. -/
lemma length_flatMap_four (f : Nat → List Nat) (hf : ∀ i, (f i).length = 4) :
    ∀ n : Nat, ((List.range n).flatMap f).length = 4 * n
  | 0 => by simp
  | n + 1 => by
    rw [List.range_succ, List.flatMap_append, List.length_append,
      length_flatMap_four f hf n]
    simp [hf]
    ring

/-- Chunk `p` of a `flatMap` of 4-byte chunks over `List.range n`. -/
lemma flatMap_chunk_four (f : Nat → List Nat) (hf : ∀ i, (f i).length = 4) :
    ∀ (n p : Nat), p < n →
      ((((List.range n).flatMap f).drop (4 * p)).take 4) = f p
  | 0, p => by omega
  | n + 1, p => by
    intro hp
    rw [List.range_succ, List.flatMap_append]
    rcases Nat.lt_or_ge p n with h | h
    · rw [List.drop_append_of_le_length (by rw [length_flatMap_four f hf n]; omega),
        List.take_append_of_le_length
          (by rw [List.length_drop, length_flatMap_four f hf n]; omega),
        flatMap_chunk_four f hf n p h]
    · have hpn : p = n := by omega
      subst hpn
      rw [show 4 * p = ((List.range p).flatMap f).length from
        (length_flatMap_four f hf p).symm, List.drop_left]
      simp [List.take_of_length_le, hf p, Nat.le_of_eq (hf p)]

/-! ## Concrete buffers used by witnesses and counterexamples -/

/-- A decoder instance for concrete runs: every block decodes to a single
RGBA pixel. -/
def decode0 : DecodeFun := fun _ _ _ _ => [0, 0, 0, 0]

/-- Minimal well-formed buffer: magic, `image_count = 0`, `info_offset =
0x40`, `image_data_offset = 0x50`, one all-zero 16-byte grid record. -/
def bWF : List Nat :=
  [0x42, 0x47, 0x53, 0x54, 0, 0, 0, 0,
   0, 0, 0, 0, 0, 0, 0, 0,
   0, 0, 0, 0, 0, 0, 0, 0,
   0, 0, 0, 0, 0, 0, 0, 0,
   0, 0, 0, 0, 0, 0, 0, 0,
   0x00, 0x00, 0x00, 0x40, 0x00, 0x00, 0x00, 0x50,
   0, 0, 0, 0, 0, 0, 0, 0,
   0, 0, 0, 0, 0, 0, 0, 0] ++ List.replicate 16 0

/-- Validated buffer with a non-divisible entry region: `info_offset =
0x40`, `image_data_offset = 0x48` (region of 8 bytes), `image_count = 0`,
followed by 16 zero bytes, total length 0x50. -/
def bOdd : List Nat :=
  [0x42, 0x47, 0x53, 0x54, 0, 0, 0, 0,
   0, 0, 0, 0, 0, 0, 0, 0,
   0, 0, 0, 0, 0, 0, 0, 0,
   0, 0, 0, 0, 0, 0, 0, 0,
   0, 0, 0, 0, 0, 0, 0, 0,
   0x00, 0x00, 0x00, 0x40, 0x00, 0x00, 0x00, 0x48,
   0, 0, 0, 0, 0, 0, 0, 0,
   0, 0, 0, 0, 0, 0, 0, 0] ++ List.replicate 16 0

/-- The end-to-end scenario header of the spec: magic, `unk_4 = 0x11`,
`image_width = image_height = 0x200`, `grid_width = 5`, `grid_height = 3`,
`image_count = 0x42`, 12 layer bytes, `info_offset = 0x40`,
`image_data_offset = 0x440`, padded with zero entry bytes up to 0x440. -/
def bScenario : List Nat :=
  [0x42, 0x47, 0x53, 0x54, 0x00, 0x00, 0x00, 0x11,
   0x00, 0x00, 0x02, 0x00, 0x00, 0x00, 0x02, 0x00,
   0x00, 0x00, 0x00, 0x05, 0x00, 0x00, 0x00, 0x03,
   0x00, 0x00, 0x00, 0x42, 0x01, 0x00, 0x01, 0x00,
   0x01, 0x01, 0x00, 0x00, 0x00, 0x00, 0x00, 0x00,
   0x00, 0x00, 0x00, 0x40, 0x00, 0x00, 0x04, 0x40,
   0x00, 0x00, 0x00, 0x00, 0x00, 0x00, 0x00, 0x00,
   0x00, 0x00, 0x00, 0x00, 0x00, 0x00, 0x00, 0x00] ++ List.replicate 0x400 0

/-! ## Claim theorems -/

/-- C7: `validate_header` returns `false` for every buffer shorter than 64
bytes and for every buffer whose first 4 bytes differ from the literal
"BGST"; it returns `true` for every buffer of length at least 64 whose
first 4 bytes equal "BGST". -/
theorem c7_validate_header (b : List Nat) :
    validate_header b = true ↔
      0x40 ≤ b.length ∧ b.take 4 = [0x42, 0x47, 0x53, 0x54] :=
  validate_header_iff b

/-- C8: for all buffers `main` and `mask` of differing byte length,
`apply_mask` fails with the size-mismatch error and produces no output
image. -/
theorem c8_size_mismatch (main_image mask_image : List Nat) (width height : Nat)
    (h : main_image.length ≠ mask_image.length) :
    apply_mask main_image mask_image width height =
      .error (.err "the image sizes are not equal!") := by
  simp [apply_mask, h]

/-- Witness for C8 at a concrete input: a 4-byte main image and an empty
mask image differ in length, and `apply_mask` fails with the size-mismatch
error. -/
theorem c8_size_mismatch_witness :
    apply_mask [0, 0, 0, 0] [] 1 1 = .error (.err "the image sizes are not equal!") :=
  c8_size_mismatch [0, 0, 0, 0] [] 1 1 (by decide)

/-- C2 counterexample: for the 1×1 buffers `main = [5,5,5,0]` (alpha already
0) and `mask = [1,0,0,7]` (RGB not all zero), the output is an exact copy of
the main pixel, so its alpha is 0 although the mask RGB is not all zero —
the claimed "alpha = 0 iff mask RGB all zero" equivalence fails. -/
theorem c2_counterexample :
    apply_mask [5, 5, 5, 0] [1, 0, 0, 7] 1 1 = .ok [5, 5, 5, 0] ∧
    [5, 5, 5, 0].getD 3 0 = 0 ∧
    ¬ ([1, 0, 0, 7].getD 0 0 = 0 ∧ [1, 0, 0, 7].getD 1 0 = 0 ∧
      [1, 0, 0, 7].getD 2 0 = 0) := by
  refine ⟨by decide, by decide, by decide⟩

/-- C2 as amended: for equal-length RGBA buffers of size `width*height*4`,
`apply_mask` succeeds with a `width*height*4`-byte output; at every pixel,
if the mask pixel's RGB channels are all zero the output pixel is the main
pixel's RGB with alpha forced to 0, and otherwise the output pixel is an
exact copy of the main pixel in all 4 channels (so the output alpha is 0
if — but not only if — the mask RGB is all zero). -/
theorem c2_mask_semantics (main_image mask_image : List Nat) (width height : Nat)
    (hm : main_image.length = width * height * 4)
    (hk : mask_image.length = width * height * 4) :
    ∃ out, apply_mask main_image mask_image width height = .ok out ∧
      out.length = width * height * 4 ∧
      ∀ p < width * height,
        (out.drop (4 * p)).take 4 =
          (if mask_image.getD (4 * p) 0 = 0 ∧ mask_image.getD (4 * p + 1) 0 = 0 ∧
              mask_image.getD (4 * p + 2) 0 = 0 then
            [main_image.getD (4 * p) 0, main_image.getD (4 * p + 1) 0,
              main_image.getD (4 * p + 2) 0, 0]
          else
            [main_image.getD (4 * p) 0, main_image.getD (4 * p + 1) 0,
              main_image.getD (4 * p + 2) 0, main_image.getD (4 * p + 3) 0]) := by
  refine ⟨(List.range (width * height)).flatMap (maskPixel main_image mask_image), ?_, ?_, ?_⟩
  · rw [apply_mask, if_neg (by omega), from_raw, if_pos (by omega), from_raw,
      if_pos (by omega)]
  · rw [length_flatMap_four (maskPixel main_image mask_image)
      (maskPixel_length main_image mask_image) (width * height)]
    ring
  · intro p hp
    rw [flatMap_chunk_four (maskPixel main_image mask_image)
      (maskPixel_length main_image mask_image) (width * height) p hp]
    rfl

/-- Witness for C2 (amended) at a concrete input: 1×1 buffers of exactly 4
bytes each. -/
theorem c2_mask_semantics_witness :
    ∃ out, apply_mask [1, 2, 3, 4] [0, 0, 0, 9] 1 1 = .ok out ∧
      out.length = 1 * 1 * 4 ∧
      ∀ p < 1 * 1,
        (out.drop (4 * p)).take 4 =
          (if [0, 0, 0, 9].getD (4 * p) 0 = 0 ∧ [0, 0, 0, 9].getD (4 * p + 1) 0 = 0 ∧
              [0, 0, 0, 9].getD (4 * p + 2) 0 = 0 then
            [[1, 2, 3, 4].getD (4 * p) 0, [1, 2, 3, 4].getD (4 * p + 1) 0,
              [1, 2, 3, 4].getD (4 * p + 2) 0, 0]
          else
            [[1, 2, 3, 4].getD (4 * p) 0, [1, 2, 3, 4].getD (4 * p + 1) 0,
              [1, 2, 3, 4].getD (4 * p + 2) 0, [1, 2, 3, 4].getD (4 * p + 3) 0]) :=
  c2_mask_semantics [1, 2, 3, 4] [0, 0, 0, 9] 1 1 (by decide) (by decide)

/-- C10 counterexample: two equal-length 8-byte buffers with `width =
height = 1` (so `width*height*4 = 4 ≠ 8`) do NOT produce an error —
`ImageBuffer::from_raw` accepts any buffer of length at least
`width*height*4`, and `apply_mask` succeeds. -/
theorem c10_counterexample :
    apply_mask [0, 0, 0, 0, 0, 0, 0, 0] [0, 0, 0, 0, 0, 0, 0, 9] 1 1 = .ok [0, 0, 0, 0] ∧
    [0, 0, 0, 0, 0, 0, 0, (0 : Nat)].length = [0, 0, 0, 0, 0, 0, 0, (9 : Nat)].length ∧
    [0, 0, 0, 0, 0, 0, 0, (0 : Nat)].length ≠ 1 * 1 * 4 := by
  refine ⟨by decide, by decide, by decide⟩

/-- C10 as amended: for equal-length buffers, `apply_mask` produces an
image exactly when the common length is at least `width*height*4`
(reconstruction as a `width × height` RGBA raster fails only for shorter
buffers, not for longer ones). -/
theorem c10_length_bound (main_image mask_image : List Nat) (width height : Nat)
    (heq : main_image.length = mask_image.length) :
    (∃ out, apply_mask main_image mask_image width height = .ok out) ↔
      width * height * 4 ≤ main_image.length := by
  rw [apply_mask, if_neg (by omega)]
  unfold from_raw
  by_cases hb : width * height * 4 ≤ main_image.length
  · rw [if_pos hb, if_pos (by omega)]
    simp [hb]
  · rw [if_neg hb]
    simp [hb]

/-- Witness for C10 (amended) at a concrete input: equal 4-byte buffers at
`width = height = 1` produce an image, matching `4 ≤ 4`. -/
theorem c10_length_bound_witness :
    ((∃ out, apply_mask [1, 2, 3, 4] [5, 6, 7, 8] 1 1 = .ok out) ↔
      1 * 1 * 4 ≤ [1, 2, 3, (4 : Nat)].length) :=
  c10_length_bound [1, 2, 3, 4] [5, 6, 7, 8] 1 1 (by decide)

/-- C6: for every buffer long enough to contain the records, a region from
`info_offset = O` to `image_data_offset = O + 16*N` parses to exactly `N`
records, the `i`-th read big-endian from the 16-byte window at `O + 16*i`. -/
theorem c6_entry_windows (b : List Nat) (O N : Nat) (h : O + 16 * N ≤ b.length) :
    parseEntries b O (O + 16 * N) =
      .ok ((List.range N).map fun i => readGridEntryD b (O + 16 * i)) := by
  have e : (O + 16 * N - O + 15) / 16 = N := by omega
  have h' : O + 16 * ((O + 16 * N - O + 15) / 16) ≤ b.length := by omega
  rw [parseEntries_eq_range b O (O + 16 * N) h', e]

/-- Witness for C6 at a concrete input: the well-formed buffer `bWF` with
`O = 0x40`, `N = 1` parses to exactly the one all-zero record. -/
theorem c6_entry_windows_witness :
    parseEntries bWF 0x40 (0x40 + 16 * 1) =
      .ok ((List.range 1).map fun i => readGridEntryD bWF (0x40 + 16 * i)) :=
  c6_entry_windows bWF 0x40 1 (by decide)

/-- C4 counterexample: on the spec's end-to-end scenario buffer
(`info_offset = 0x40`, `image_data_offset = 0x440`), grid-entry parsing
yields 64 records, not 1: the region holds 0x400 bytes = 64 records. -/
theorem c4_counterexample :
    (parseEntries bScenario (Header.from_validated_header_bytes bScenario).info_offset
        (Header.from_validated_header_bytes bScenario).image_data_offset).map List.length =
      .ok 64 ∧ (64 : Nat) ≠ 1 := by
  refine ⟨by decide, by decide⟩

/-- C4 as amended: the scenario buffer validates, parses to a `Header` with
exactly the listed field values (big-endian fixed-offset reads at the
documented offsets), and grid-entry parsing over
`[info_offset, image_data_offset)` yields exactly 64 entries. -/
theorem c4_scenario :
    validate_header bScenario = true ∧
    Header.from_validated_header_bytes bScenario =
      { unk_4 := 0x11, image_width := 0x200, image_height := 0x200,
        grid_width := 5, grid_height := 3, image_count := 0x42,
        layer_enabled := [true, false, true, false, true, true,
          false, false, false, false, false, false],
        info_offset := 0x40, image_data_offset := 0x440 } ∧
    (parseEntries bScenario (Header.from_validated_header_bytes bScenario).info_offset
        (Header.from_validated_header_bytes bScenario).image_data_offset).map List.length =
      .ok 64 := by
  refine ⟨by decide, by decide, by decide⟩

/-- C3 counterexample: the validated buffer `bOdd` has an entry region of 8
bytes (`0x40` to `0x48`), not divisible into 16-byte records, yet
`get_raw_images` succeeds (no error result): the loop reads one full
16-byte record past `image_data_offset` — all within the 0x50-byte
buffer — and extraction completes. -/
theorem c3_counterexample :
    validate_header bOdd = true ∧
    (Header.from_validated_header_bytes bOdd).info_offset = 0x40 ∧
    (Header.from_validated_header_bytes bOdd).image_data_offset = 0x48 ∧
    ¬ (16 ∣ ((Header.from_validated_header_bytes bOdd).image_data_offset -
      (Header.from_validated_header_bytes bOdd).info_offset)) ∧
    bOdd.length = 0x50 ∧
    Except.map ImageList.images (get_raw_images decode0 bOdd) = .ok [] := by
  refine ⟨by decide, by decide, by decide, by decide, by decide, by decide⟩

/-- C3 as amended: a validated buffer whose entry region is not evenly
divisible into 16-byte records is NOT treated as an error: the loop reads
`⌊(image_data_offset - info_offset)/16⌋ + 1` records (the last one
extending past `image_data_offset`), and as long as those reads, the data
offset and every declared block lie within the buffer, `get_raw_images`
succeeds; an out-of-bounds failure (a panic, not a surfaced error result)
can arise only when a read exceeds the buffer. -/
theorem c3_overrun_success (d : DecodeFun) (b : List Nat)
    (header : Header) (hh : header = Header.from_validated_header_bytes b)
    (hv : validate_header b = true)
    (hod : ¬ (16 ∣ (header.image_data_offset - header.info_offset)))
    (hE : header.info_offset +
      16 * ((header.image_data_offset - header.info_offset + 15) / 16) ≤ b.length)
    (hD : header.image_data_offset ≤ b.length)
    (hB : header.image_data_offset +
      (toI16 header.image_count).toNat * COMPRESSED_IMAGE_SIZE ≤ b.length) :
    ∃ l, get_raw_images d b = .ok l ∧
      l.grid_entries.length =
        (header.image_data_offset - header.info_offset) / 16 + 1 := by
  refine ⟨_, get_raw_images_eq d b header hh hv hE hD hB, ?_⟩
  simp only [List.length_map, List.length_range]
  omega

/-- Witness for C3 (amended) at the concrete buffer `bOdd`: the 8-byte
region yields `8/16 + 1 = 1` record and extraction succeeds. -/
theorem c3_overrun_success_witness :
    ∃ l, get_raw_images decode0 bOdd = .ok l ∧
      l.grid_entries.length =
        ((Header.from_validated_header_bytes bOdd).image_data_offset -
          (Header.from_validated_header_bytes bOdd).info_offset) / 16 + 1 :=
  c3_overrun_success decode0 bOdd (Header.from_validated_header_bytes bOdd) rfl
    (by decide) (by decide) (by decide) (by decide) (by decide)

/-- With compositing disabled, the per-entry export loop produces exactly
the raw decoded images, in the same order. -/
lemma exportEntries_false (d : DecodeFun) (header : Header) (image_data : List Nat) :
    ∀ l : List GridEntry,
      exportEntries d header image_data false l = decodeEntries d header image_data l
  | [] => rfl
  | e :: rest => by
    rw [exportEntries, decodeEntries]
    unfold entryExportImages
    cases hm : decodeSlot d header image_data e.main_image_index TextureFormat.CMPR with
    | error er => rfl
    | ok mains =>
      cases hk : decodeSlot d header image_data e.mask_image_index TextureFormat.I4 with
      | error er => rfl
      | ok masks =>
        show (match exportEntries d header image_data false rest with
          | Except.error er => Except.error er
          | Except.ok later => Except.ok ((mains ++ masks) ++ later)) = _
        rw [exportEntries_false d header image_data rest]

/-- C5: compositing is a caller-controlled mode: with the flag off the
pipeline exports exactly the raw decoded image list unmodified (masks as
independent images), and with the flag on an entry whose main and mask
slots both produced an image exports the composite of that pair. -/
theorem c5_compositing_mode (d : DecodeFun) (b : List Nat) (header : Header)
    (image_data : List Nat) (e : GridEntry) (m k : List Nat) :
    (extract_bgst d b false = Except.map ImageList.images (get_raw_images d b)) ∧
    (decodeSlot d header image_data e.main_image_index TextureFormat.CMPR = .ok [m] →
      decodeSlot d header image_data e.mask_image_index TextureFormat.I4 = .ok [k] →
      entryExportImages d header image_data true e =
        Except.map (fun out => [out])
          (apply_mask m k header.image_width header.image_height)) := by
  constructor
  · simp only [extract_bgst, get_raw_images]
    generalize Header.from_validated_header_bytes b = hdr
    split
    · rfl
    · cases hp : parseEntries b hdr.info_offset hdr.image_data_offset with
      | error er => rfl
      | ok gr =>
        show (if hdr.image_data_offset ≤ b.length then
            exportEntries d hdr (b.drop hdr.image_data_offset) false gr
          else Except.error ExtractError.panic) =
          Except.map ImageList.images (if hdr.image_data_offset ≤ b.length then
            match decodeEntries d hdr (b.drop hdr.image_data_offset) gr with
            | Except.error er => Except.error er
            | Except.ok images => Except.ok (ImageList.mk hdr.image_width hdr.image_height gr images)
          else Except.error ExtractError.panic)
        by_cases hD : hdr.image_data_offset ≤ b.length
        · rw [if_pos hD, if_pos hD, exportEntries_false d hdr (b.drop hdr.image_data_offset) gr]
          cases decodeEntries d hdr (b.drop hdr.image_data_offset) gr with
          | error er => rfl
          | ok imgs => rfl
        · rw [if_neg hD, if_neg hD]
          rfl
  · intro hm hk
    unfold entryExportImages
    rw [hm, hk]
    show (match apply_mask m k header.image_width header.image_height with
      | Except.error er => Except.error er
      | Except.ok merged => Except.ok [merged]) =
      Except.map (fun out => [out]) (apply_mask m k header.image_width header.image_height)
    cases apply_mask m k header.image_width header.image_height with
    | error er => rfl
    | ok merged => rfl

/-- A concrete header for witnesses: 1x1 images, `image_count = 1`. -/
def hdrW : Header :=
  { unk_4 := 0, image_width := 1, image_height := 1, grid_width := 0, grid_height := 0,
    image_count := 1, layer_enabled := [], info_offset := 0x40, image_data_offset := 0x50 }

/-- A concrete all-zero grid entry (main and mask index 0). -/
def entry0 : GridEntry := ⟨0, 0, 0, 0, 0, 0, 0, 0⟩

lemma wslot (fmt : TextureFormat) :
    decodeSlot decode0 hdrW (List.replicate 0x20000 0) 0 fmt = .ok [[0, 0, 0, 0]] := by
  rw [decodeSlot, if_pos (by decide), if_pos]
  · rfl
  · rw [List.length_replicate]
    decide

theorem c5_compositing_mode_witness :
    (extract_bgst decode0 bWF false = Except.map ImageList.images (get_raw_images decode0 bWF)) ∧
    entryExportImages decode0 hdrW (List.replicate 0x20000 0) true entry0 =
      Except.map (fun out => [out])
        (apply_mask [0, 0, 0, 0] [0, 0, 0, 0] hdrW.image_width hdrW.image_height) := by
  have h := c5_compositing_mode decode0 bWF hdrW (List.replicate 0x20000 0) entry0
    [0, 0, 0, 0] [0, 0, 0, 0]
  exact ⟨h.1, h.2 (wslot TextureFormat.CMPR) (wslot TextureFormat.I4)⟩

/-- Header parsing depends only on the first 0x30 bytes. -/
lemma from_validated_congr (b1 b2 : List Nat)
    (h : ∀ i, i < 0x30 → b1.getD i 0 = b2.getD i 0) :
    Header.from_validated_header_bytes b1 = Header.from_validated_header_bytes b2 := by
  have hu : ∀ off : Nat, off + 4 ≤ 0x30 → readU32BE b1 off = readU32BE b2 off := by
    intro off hoff
    unfold readU32BE
    rw [h off (by omega), h (off + 1) (by omega), h (off + 2) (by omega),
      h (off + 3) (by omega)]
  unfold Header.from_validated_header_bytes
  rw [hu 4 (by omega), hu 8 (by omega), hu 0xC (by omega), hu 0x10 (by omega),
    hu 0x14 (by omega), hu 0x18 (by omega), hu 0x28 (by omega), hu 0x2C (by omega)]
  congr 1
  exact List.map_congr_left fun i hi => by
    have h12 : i < 12 := List.mem_range.mp hi
    rw [h (0x1C + i) (by omega)]

/-- An unchecked 16-bit read depends only on its two bytes. -/
lemma readI16D_congr (b1 b2 : List Nat) (off : Nat)
    (h0 : b1.getD off 0 = b2.getD off 0)
    (h1 : b1.getD (off + 1) 0 = b2.getD (off + 1) 0) :
    readI16D b1 off = readI16D b2 off := by
  unfold readI16D
  rw [h0, h1]

/-- Congruence of `flatMap` under pointwise equality on members. -/
lemma flatMap_congr_mem {A B : Type} (f g : A → List B) :
    ∀ l : List A, (∀ a ∈ l, f a = g a) → l.flatMap f = l.flatMap g
  | [], _ => rfl
  | a :: t, h => by
    rw [List.flatMap_cons, List.flatMap_cons, h a (by simp),
      flatMap_congr_mem f g t fun x hx => h x (by simp [hx])]

/-- C9: the decoded image list of `get_raw_images` does not depend on the
`enabled` halfword of any grid record: two equal-length buffers that agree
everywhere except possibly on the first two bytes of some 16-byte records
of the (well-formed, in-bounds) entry region produce byte-identical image
lists. -/
theorem c9_enabled_independence (d : DecodeFun) (b1 b2 : List Nat) (N : Nat)
    (header : Header) (hh : header = Header.from_validated_header_bytes b1)
    (hlen : b1.length = b2.length)
    (hv : validate_header b1 = true)
    (hO : 0x30 ≤ header.info_offset)
    (hN : header.image_data_offset = header.info_offset + 16 * N)
    (hB : header.image_data_offset +
      (toI16 header.image_count).toNat * COMPRESSED_IMAGE_SIZE ≤ b1.length)
    (hdiff : ∀ i, i < b1.length → b1[i]? = b2[i]? ∨
      (header.info_offset ≤ i ∧ i < header.info_offset + 16 * N ∧
        (i - header.info_offset) % 16 ≤ 1)) :
    Except.map ImageList.images (get_raw_images d b1) =
      Except.map ImageList.images (get_raw_images d b2) := by
  have hag : ∀ i : Nat,
      (i < header.info_offset ∨ header.info_offset + 16 * N ≤ i ∨
        2 ≤ (i - header.info_offset) % 16) → b1[i]? = b2[i]? := by
    intro i hi
    by_cases hlt : i < b1.length
    · rcases hdiff i hlt with h | h
      · exact h
      · omega
    · rw [List.getElem?_eq_none (by omega), List.getElem?_eq_none (by omega)]
  have hagD : ∀ i : Nat,
      (i < header.info_offset ∨ header.info_offset + 16 * N ≤ i ∨
        2 ≤ (i - header.info_offset) % 16) → b1.getD i 0 = b2.getD i 0 := by
    intro i hi
    rw [List.getD_eq_getElem?_getD, List.getD_eq_getElem?_getD, hag i hi]
  -- the two buffers parse to the same header
  have hhdr : Header.from_validated_header_bytes b2 = header := by
    rw [hh]
    exact (from_validated_congr b1 b2 fun i hi => hagD i (by omega)).symm
  -- the second buffer also validates
  have hv2 : validate_header b2 = true := by
    rw [validate_header_iff] at hv ⊢
    refine ⟨by omega, ?_⟩
    have htake : b2.take 4 = b1.take 4 := List.ext_getElem? fun i => by
      rw [List.getElem?_take, List.getElem?_take]
      split
      · rename_i hi4
        exact (hag i (by omega)).symm
      · rfl
    rw [htake]
    exact hv.2
  -- the data regions agree
  have hdrop : b2.drop header.image_data_offset = b1.drop header.image_data_offset :=
    List.ext_getElem? fun j => by
      rw [List.getElem?_drop, List.getElem?_drop]
      exact (hag (header.image_data_offset + j) (by omega)).symm
  -- in-bounds facts
  have hE1 : header.info_offset +
      16 * ((header.image_data_offset - header.info_offset + 15) / 16) ≤ b1.length := by
    have : COMPRESSED_IMAGE_SIZE = 0x20000 := rfl
    omega
  have hD1 : header.image_data_offset ≤ b1.length := by omega
  have h1 := get_raw_images_eq d b1 header hh hv hE1 hD1 hB
  have h2 := get_raw_images_eq d b2 header (hhdr.symm) hv2 (by omega) (by omega) (by omega)
  rw [h1, h2]
  have hceil : (header.image_data_offset - header.info_offset + 15) / 16 = N := by omega
  simp only [Except.map, hceil, hdrop, List.flatMap_map]
  refine congrArg Except.ok ?_
  refine flatMap_congr_mem _ _ (List.range N) fun i hi => ?_
  have hiN : i < N := List.mem_range.mp hi
  have hmain : (readGridEntryD b2 (header.info_offset + 16 * i)).main_image_index =
      (readGridEntryD b1 (header.info_offset + 16 * i)).main_image_index := by
    show readI16D b2 (header.info_offset + 16 * i + 8) =
      readI16D b1 (header.info_offset + 16 * i + 8)
    exact (readI16D_congr b1 b2 _ (hagD _ (by omega)) (hagD _ (by omega))).symm
  have hmask : (readGridEntryD b2 (header.info_offset + 16 * i)).mask_image_index =
      (readGridEntryD b1 (header.info_offset + 16 * i)).mask_image_index := by
    show readI16D b2 (header.info_offset + 16 * i + 0xA) =
      readI16D b1 (header.info_offset + 16 * i + 0xA)
    exact (readI16D_congr b1 b2 _ (hagD _ (by omega)) (hagD _ (by omega))).symm
  rw [hmain, hmask]

/-- The buffer `bWF` with the entry's `enabled` halfword set to 1 instead
of 0 (byte 0x41 changed). -/
def bWF2 : List Nat :=
  [0x42, 0x47, 0x53, 0x54, 0, 0, 0, 0,
   0, 0, 0, 0, 0, 0, 0, 0,
   0, 0, 0, 0, 0, 0, 0, 0,
   0, 0, 0, 0, 0, 0, 0, 0,
   0, 0, 0, 0, 0, 0, 0, 0,
   0x00, 0x00, 0x00, 0x40, 0x00, 0x00, 0x00, 0x50,
   0, 0, 0, 0, 0, 0, 0, 0,
   0, 0, 0, 0, 0, 0, 0, 0] ++
  [0x00, 0x01, 0, 0, 0, 0, 0, 0, 0, 0, 0, 0, 0, 0, 0, 0]

theorem c9_enabled_independence_witness :
    Except.map ImageList.images (get_raw_images decode0 bWF) =
      Except.map ImageList.images (get_raw_images decode0 bWF2) :=
  c9_enabled_independence decode0 bWF bWF2 1 (Header.from_validated_header_bytes bWF)
    rfl (by decide) (by decide) (by decide) (by decide) (by decide) (by decide)

/-- An unchecked 16-byte record read depends only on its 16 bytes. -/
lemma readGridEntryD_congr (b1 b2 : List Nat) (off : Nat)
    (h : ∀ i, off ≤ i → i < off + 16 → b1.getD i 0 = b2.getD i 0) :
    readGridEntryD b1 off = readGridEntryD b2 off := by
  unfold readGridEntryD
  rw [readI16D_congr b1 b2 off (h off (by omega) (by omega)) (h (off + 1) (by omega) (by omega)),
    readI16D_congr b1 b2 (off + 2) (h (off + 2) (by omega) (by omega))
      (h (off + 2 + 1) (by omega) (by omega)),
    readI16D_congr b1 b2 (off + 4) (h (off + 4) (by omega) (by omega))
      (h (off + 4 + 1) (by omega) (by omega)),
    readI16D_congr b1 b2 (off + 6) (h (off + 6) (by omega) (by omega))
      (h (off + 6 + 1) (by omega) (by omega)),
    readI16D_congr b1 b2 (off + 8) (h (off + 8) (by omega) (by omega))
      (h (off + 8 + 1) (by omega) (by omega)),
    readI16D_congr b1 b2 (off + 0xA) (h (off + 0xA) (by omega) (by omega))
      (h (off + 0xA + 1) (by omega) (by omega)),
    readI16D_congr b1 b2 (off + 0xC) (h (off + 0xC) (by omega) (by omega))
      (h (off + 0xC + 1) (by omega) (by omega)),
    readI16D_congr b1 b2 (off + 0xE) (h (off + 0xE) (by omega) (by omega))
      (h (off + 0xE + 1) (by omega) (by omega))]

/-- The 80-byte prefix of the C1 counterexample buffer: a header with
`image_count = 0x8000`, `info_offset = 0x40`, `image_data_offset = 0x50`,
followed by one grid record with `main_image_index = 0` and
`mask_image_index = -1`. -/
def prefixCx : List Nat :=
  [0x42, 0x47, 0x53, 0x54, 0, 0, 0, 0,
   0, 0, 0, 0, 0, 0, 0, 0,
   0, 0, 0, 0, 0, 0, 0, 0,
   0x00, 0x00, 0x80, 0x00, 0, 0, 0, 0,
   0, 0, 0, 0, 0, 0, 0, 0,
   0x00, 0x00, 0x00, 0x40, 0x00, 0x00, 0x00, 0x50,
   0, 0, 0, 0, 0, 0, 0, 0,
   0, 0, 0, 0, 0, 0, 0, 0] ++
  [0, 0, 0, 0, 0, 0, 0, 0, 0, 0, 0xFF, 0xFF, 0, 0, 0, 0]

/-- The C1 counterexample buffer: the prefix followed by exactly
`image_count * 0x20000` data bytes, so the layout is well formed
(`length = image_data_offset + image_count * 0x20000`). -/
def bigCx : List Nat := prefixCx ++ List.replicate (0x8000 * 0x20000) 0

/-- The header `bigCx` parses to. -/
def hdrCx : Header :=
  { unk_4 := 0, image_width := 0, image_height := 0, grid_width := 0, grid_height := 0,
    image_count := 0x8000,
    layer_enabled := [false, false, false, false, false, false,
      false, false, false, false, false, false],
    info_offset := 0x40, image_data_offset := 0x50 }

/-- C1 counterexample: `bigCx` passes validation and has a well-formed
layout (`length = image_data_offset + image_count * 0x20000`, entry region
of exactly one 16-byte record); its single entry has `main_image_index = 0`,
which lies in `[0, image_count)` since `image_count = 0x8000`, so the claim
demands one CMPR-decoded image — but the code compares the index against
`image_count as i16 = -32768` (a truncating cast), skips the slot, and
returns an empty image list. -/
theorem c1_counterexample :
    (Header.from_validated_header_bytes bigCx).image_count = 0x8000 ∧
    bigCx.length = (Header.from_validated_header_bytes bigCx).image_data_offset +
      (Header.from_validated_header_bytes bigCx).image_count * COMPRESSED_IMAGE_SIZE ∧
    Except.map (fun l => l.grid_entries.map fun e => (e.main_image_index, e.mask_image_index))
      (get_raw_images decode0 bigCx) = .ok [(0, -1)] ∧
    (0 : Int) ≥ 0 ∧ (0 : Int) < 0x8000 ∧
    Except.map ImageList.images (get_raw_images decode0 bigCx) = .ok [] := by
  have hpl : prefixCx.length = 80 := by decide
  have hlenCx : bigCx.length = 80 + 0x8000 * 0x20000 := by
    rw [bigCx, List.length_append, List.length_replicate, hpl]
  have hgetD : ∀ i, i < 80 → bigCx.getD i 0 = prefixCx.getD i 0 := by
    intro i hi
    rw [bigCx]
    exact List.getD_append prefixCx (List.replicate (0x8000 * 0x20000) 0) 0 i (by omega)
  have hhdrp : Header.from_validated_header_bytes bigCx =
      Header.from_validated_header_bytes prefixCx :=
    from_validated_congr bigCx prefixCx fun i hi => hgetD i (by omega)
  have hhdrc : Header.from_validated_header_bytes prefixCx = hdrCx := by decide
  have hv : validate_header bigCx = true := by
    rw [validate_header_iff]
    refine ⟨by omega, ?_⟩
    rw [bigCx, List.take_append_of_le_length (by omega)]
    decide
  have hio : hdrCx.info_offset = 0x40 := rfl
  have hdo : hdrCx.image_data_offset = 0x50 := rfl
  have hic : hdrCx.image_count = 0x8000 := rfl
  have hcsz : COMPRESSED_IMAGE_SIZE = 0x20000 := rfl
  have hE : hdrCx.info_offset +
      16 * ((hdrCx.image_data_offset - hdrCx.info_offset + 15) / 16) ≤ bigCx.length := by
    rw [hio, hdo]
    omega
  have hD : hdrCx.image_data_offset ≤ bigCx.length := by
    rw [hdo]
    omega
  have hB : hdrCx.image_data_offset +
      (toI16 hdrCx.image_count).toNat * COMPRESSED_IMAGE_SIZE ≤ bigCx.length := by
    rw [hdo, hic, hcsz]
    have ht : (toI16 0x8000).toNat = 0 := by decide
    rw [ht]
    omega
  have hmaster := get_raw_images_eq decode0 bigCx hdrCx (by rw [hhdrp, hhdrc]) hv hE hD hB
  have hent : readGridEntryD bigCx 0x40 = (⟨0, 0, 0, 0, 0, -1, 0, 0⟩ : GridEntry) := by
    rw [readGridEntryD_congr bigCx prefixCx 0x40 fun i h1 h2 => hgetD i (by omega)]
    decide
  have hslotm : decodeSlotD decode0 hdrCx (List.drop 80 bigCx) 0 TextureFormat.CMPR = [] := by
    rw [decodeSlotD, if_neg (by decide)]
  have hslotk : decodeSlotD decode0 hdrCx (List.drop 80 bigCx) (-1) TextureFormat.I4 = [] := by
    rw [decodeSlotD, if_neg (by decide)]
  refine ⟨?_, ?_, ?_, by decide, by decide, ?_⟩
  · rw [hhdrp, hhdrc]
    exact hic
  · rw [hhdrp, hhdrc, hdo, hic, hcsz]
    omega
  · rw [hmaster, hio, hdo]
    simp [hent, Except.map]
    decide
  · rw [hmaster, hio, hdo]
    simp [hent, Except.map, hslotm, hslotk]

/-- C1 as amended: for every validated buffer with a well-formed layout
(entry region of exactly `N` 16-byte records and
`length ≥ image_data_offset + image_count * 0x20000`), `get_raw_images`
succeeds, and its image list is the concatenation, over grid entries in
file order, of the CMPR-decoded block at `main_image_index` followed by the
I4-decoded block at `mask_image_index`, where a slot contributes exactly
when its index is greater than -1 AND less than `image_count` truncated to
a signed 16-bit value (for `image_count < 0x8000` this coincides with the
claimed interval `[0, image_count)`); an index failing that guard,
including -1, contributes no image and raises no error. -/
theorem c1_index_guard (d : DecodeFun) (b : List Nat) (N : Nat)
    (header : Header) (hh : header = Header.from_validated_header_bytes b)
    (hv : validate_header b = true)
    (hN : header.image_data_offset = header.info_offset + 16 * N)
    (hlen : header.image_data_offset + header.image_count * COMPRESSED_IMAGE_SIZE ≤ b.length) :
    get_raw_images d b =
      .ok { image_width := header.image_width
            image_height := header.image_height
            grid_entries :=
              (List.range N).map fun i => readGridEntryD b (header.info_offset + 16 * i)
            images :=
              ((List.range N).map fun i => readGridEntryD b (header.info_offset + 16 * i)).flatMap
                fun e =>
                  decodeSlotD d header (b.drop header.image_data_offset)
                    e.main_image_index TextureFormat.CMPR ++
                  decodeSlotD d header (b.drop header.image_data_offset)
                    e.mask_image_index TextureFormat.I4 } := by
  have hceil : (header.image_data_offset - header.info_offset + 15) / 16 = N := by omega
  have hD : header.image_data_offset ≤ b.length :=
    le_trans (Nat.le_add_right _ _) hlen
  have hmul : (toI16 header.image_count).toNat * COMPRESSED_IMAGE_SIZE ≤
      header.image_count * COMPRESSED_IMAGE_SIZE :=
    Nat.mul_le_mul_right _ (toI16_toNat_le header.image_count)
  have hB : header.image_data_offset +
      (toI16 header.image_count).toNat * COMPRESSED_IMAGE_SIZE ≤ b.length :=
    le_trans (Nat.add_le_add_left hmul _) hlen
  have hE : header.info_offset +
      16 * ((header.image_data_offset - header.info_offset + 15) / 16) ≤ b.length := by
    rw [hceil, ← hN]
    exact hD
  rw [get_raw_images_eq d b header hh hv hE hD hB, hceil]

/-- Witness for C1 (amended) at the concrete buffer `bWF`
(`image_count = 0`, one all-zero record): extraction succeeds with that one
record and an empty image list. -/
theorem c1_index_guard_witness :
    get_raw_images decode0 bWF =
      .ok (ImageList.mk 0 0 [GridEntry.mk 0 0 0 0 0 0 0 0] []) := by
  have h := c1_index_guard decode0 bWF 1 (Header.from_validated_header_bytes bWF) rfl
    (by decide) (by decide) (by decide)
  rw [h]
  rfl

end BGST
